import Mathlib

/-!
Shallow embedding of the chat-widget core from `src/pages/index.js`
(component `AgentComponent` and the module-level helpers `getSessionId`
and `getUserId`), together with proofs of the specified properties.

The JavaScript source is sequential and event-driven; each handler is
embedded as a pure Lean function on an explicit state.  Fallible steps
(the `fetch` call, `res.json()`, an array access that would throw a
`TypeError`) are modelled with `Except`/`Option`.
-/

namespace ChaiChat

/-- One entry of the conversation log: `{ role, content }` as built in
`submitMessage` (`role` is `"user"` or `"agent"`). -/
structure MessageEntry where
  role : String
  content : String
deriving DecidableEq

/-- Per-message feedback flags, as stored in `feedbackArr`:
`{ like, dislike, copied }`. -/
structure Feedback where
  like : Bool
  dislike : Bool
  copied : Bool
deriving DecidableEq

/-- The default feedback value pushed by the sync effect:
`{ like: false, dislike: false, copied: false }`. -/
def defaultFeedback : Feedback := ⟨false, false, false⟩

/-- The set of code points removed by JavaScript `String.prototype.trim`
(ECMAScript WhiteSpace and LineTerminator). -/
def isJsWhitespace (c : Char) : Bool :=
  let n := c.toNat
  n == 0x9 || n == 0xA || n == 0xB || n == 0xC || n == 0xD || n == 0x20 ||
  n == 0xA0 || n == 0x1680 || (0x2000 ≤ n && n ≤ 0x200A) ||
  n == 0x2028 || n == 0x2029 || n == 0x202F || n == 0x205F || n == 0x3000 ||
  n == 0xFEFF

/-- JavaScript `s.trim()`: strip leading and trailing whitespace. -/
def jsTrim (s : String) : String :=
  ⟨((s.data.dropWhile isJsWhitespace).reverse.dropWhile isJsWhitespace).reverse⟩

/-! ## Identity Store (`getSessionId`, `getUserId`)

The `uuid` package's `v4()` is an external dependency of the source; it is
modelled as the canonical dashed hexadecimal rendering (8-4-4-4-12, 36
characters) of a 128-bit random value `r`.  The v4 version/variant bits
only fix particular hex digits and do not affect any verified property,
so they are not imposed on `r`. -/

/-- Hexadecimal digit character for a value `0 ≤ n ≤ 15`. -/
def hexDigitChar (n : Nat) : Char :=
  if n < 10 then Char.ofNat (48 + n) else Char.ofNat (87 + n)

/-- Exactly `w` hexadecimal digits of `n`, most significant first,
zero-padded on the left. -/
def hexDigits : Nat → Nat → List Char
  | 0, _ => []
  | w + 1, n => hexDigits w (n / 16) ++ [hexDigitChar (n % 16)]

/-- Model of `uuidv4()`: canonical dashed hexadecimal form of the 128-bit
random value `r` (36 characters, groups of 8-4-4-4-12). -/
def uuidv4 (r : Nat) : List Char :=
  let h := hexDigits 32 (r % 2 ^ 128)
  h.take 8 ++ '-' :: ((h.drop 8).take 4 ++ '-' :: ((h.drop 12).take 4 ++
    '-' :: ((h.drop 16).take 4 ++ '-' :: (h.drop 20).take 12)))

/-- `uuidv4().replace(dash-regex, "").slice(0, 32)`: strip the dashes and
keep at most the first 32 characters.  (`slice` acts on UTF-16 code units; every
character here is ASCII, so taking characters is exact.) -/
def generateId (r : Nat) : String :=
  ⟨((uuidv4 r).filter (fun c => c ≠ '-')).take 32⟩

/-- `getSessionId`: given whether a `window` exists (`isClient`), the
stored `sessionStorage.getItem("sessionId")` value (`none` for null) and
the random value `r` the generator would draw, return the id together
with the storage content afterwards.  A stored value that is empty
(falsy) or longer than 32 characters is discarded and a fresh id is
generated and written back; in a non-client context the function returns
`""` and does not touch storage. -/
def getSessionId (isClient : Bool) (stored : Option String) (r : Nat) :
    String × Option String :=
  if !isClient then ("", stored)
  else
    let valid : Option String :=
      match stored with
      | some s => if s ≠ "" ∧ s.length ≤ 32 then some s else none
      | none => none
    match valid with
    | some s => (s, stored)
    | none =>
      let fresh := generateId r
      (fresh, some fresh)

/-- `getUserId`: identical logic to `getSessionId` but against
`localStorage.getItem("userId")`. -/
def getUserId (isClient : Bool) (stored : Option String) (r : Nat) :
    String × Option String :=
  if !isClient then ("", stored)
  else
    let valid : Option String :=
      match stored with
      | some s => if s ≠ "" ∧ s.length ≤ 32 then some s else none
      | none => none
    match valid with
    | some s => (s, stored)
    | none =>
      let fresh := generateId r
      (fresh, some fresh)

/-! ## Exchange Controller (`submitMessage`) -/

/-- The relevant component state touched by `submitMessage`: the
`useState` hooks `message`, `conversation`, `error`, `isLoading`,
`showPills`, `sessionId` and `userId`. -/
structure ChatState where
  message : String
  conversation : List MessageEntry
  error : Option String
  isLoading : Bool
  showPills : Bool
  sessionId : String
  userId : String
deriving DecidableEq

/-- The parsed JSON response body: the only field the controller reads is
`output_data.content`.  The outer `Option` is `none` when `output_data`
is absent or falsy (e.g. `null`); the inner `Option` is `none` when
`content` is absent or not a string. -/
structure ResponseBody where
  output_data : Option (Option String)
deriving DecidableEq

/-- The `fetch` response: HTTP status plus the result of `res.json()`
(`Except.error m` models a parse failure thrown with message `m`). -/
structure HttpResponse where
  status : Nat
  body : Except String ResponseBody

/-- `res.ok`: status in the inclusive range 200–299. -/
def resOk (status : Nat) : Bool :=
  200 ≤ status && status ≤ 299

/-- The fallback agent text used when a 2xx body carries no (truthy)
`output_data.content`. -/
def noValidResponse : String := "No valid response received from agent."

/-- `data.output_data && data.output_data.content ? ... : fallback`.
JavaScript truthiness of a string is non-emptiness, so a present but
empty `content` selects the fallback. -/
def agentReply (data : ResponseBody) : String :=
  match data.output_data with
  | some od =>
    match od with
    | some c => if c = "" then noValidResponse else c
    | none => noValidResponse
  | none => noValidResponse

/-- The synthetic agent entry built in the `catch` block:
`{ role: "agent", content: "Error: " + err.message }`. -/
def errorEntry (msg : String) : MessageEntry :=
  ⟨"agent", "Error: " ++ msg⟩

/-- The request envelope `payload` built by `submitMessage`. -/
structure RequestEnvelope where
  message : MessageEntry
  stateful : Bool
  stream : Bool
  user_id : String
  session_id : String
  verbose : Bool
deriving DecidableEq

/-- The state just before the `fetch` call is issued: the input echo is
cleared, the previous error cleared, the user entry appended to the
conversation, the pills hidden and the loading flag raised — all before
any network activity. -/
def submitPre (st : ChatState) (userInput : String) : ChatState :=
  { st with
    message := ""
    error := none
    conversation := st.conversation ++ [⟨"user", jsTrim userInput⟩]
    showPills := false
    isLoading := true }

/-- The payload sent to `/api/proxy`. -/
def submitEnvelope (st : ChatState) (userInput : String) : RequestEnvelope :=
  ⟨⟨"user", jsTrim userInput⟩, true, false, st.userId, st.sessionId, false⟩

/-- The single conversation entry appended after the fetch resolves:
thrown fetch or parse errors and non-2xx statuses become `errorEntry`
(the `!res.ok` branch throws `Server error: ${res.status}` which the
`catch` turns into a conversation entry); a 2xx parsed body becomes the
agent reply. -/
def responseEntry (fetch : Except String HttpResponse) : MessageEntry :=
  match fetch with
  | .error m => errorEntry m
  | .ok res =>
    if resOk res.status then
      match res.body with
      | .error m => errorEntry m
      | .ok data => ⟨"agent", agentReply data⟩
    else errorEntry ("Server error: " ++ toString res.status)

/-- The `try`/`catch` body after the fetch outcome is known: append the
response entry; the success branch additionally clears `message` (a
no-op, it is already empty). -/
def applyFetchOutcome (st : ChatState) (fetch : Except String HttpResponse) :
    ChatState :=
  match fetch with
  | .error m =>
    { st with conversation := st.conversation ++ [errorEntry m] }
  | .ok res =>
    if resOk res.status then
      match res.body with
      | .error m =>
        { st with conversation := st.conversation ++ [errorEntry m] }
      | .ok data =>
        { st with
          conversation := st.conversation ++ [⟨"agent", agentReply data⟩]
          message := "" }
    else
      { st with
        conversation :=
          st.conversation ++ [errorEntry ("Server error: " ++ toString res.status)] }

/-- `submitMessage(userInput)` as a function of the fetch outcome: returns
the final state and the request envelope that was sent (`none` when no
network call was issued).  An input whose trim is empty returns
immediately with no state change; otherwise the optimistic update
(`submitPre`) happens, exactly one request is issued, the response entry
is appended and the `finally` block lowers the loading flag. -/
def submitMessage (st : ChatState) (userInput : String)
    (fetch : Except String HttpResponse) : ChatState × Option RequestEnvelope :=
  if jsTrim userInput = "" then (st, none)
  else
    let st1 := submitPre st userInput
    let st2 := applyFetchOutcome st1 fetch
    ({ st2 with isLoading := false }, some (submitEnvelope st userInput))

/-! ## Feedback handlers (`handleLike`, `handleDislike`, `handleCopy`)

Each handler copies `feedbackArr` and overwrites one slot.  `handleLike`
and `handleDislike` read `arr[idx].like` / `arr[idx].dislike` first: for
an out-of-range `idx` the element is `undefined` and the property read
throws a `TypeError`, modelled here as `none`. -/

/-- `handleLike(idx)`: `arr[idx] = { like: !arr[idx].like, dislike: false,
copied: false }`; `none` models the `TypeError` thrown when `arr[idx]` is
`undefined`. -/
def handleLike (idx : Nat) (arr : List Feedback) : Option (List Feedback) :=
  if h : idx < arr.length then
    some (arr.set idx ⟨!(arr.get ⟨idx, h⟩).like, false, false⟩)
  else none

/-- `handleDislike(idx)`: `arr[idx] = { like: false, dislike:
!arr[idx].dislike, copied: false }`; `none` models the out-of-range
`TypeError`. -/
def handleDislike (idx : Nat) (arr : List Feedback) : Option (List Feedback) :=
  if h : idx < arr.length then
    some (arr.set idx ⟨false, !(arr.get ⟨idx, h⟩).dislike, false⟩)
  else none

/-- The delay in milliseconds passed to `setTimeout` in `handleCopy`. -/
def copyResetDelayMs : Nat := 1200

/-- The immediate update of `handleCopy(text, idx)` on `feedbackArr`:
`arr[idx] = { ...arr[idx], copied: true, like: false, dislike: false }` —
every field of the spread is overridden, so the slot becomes
`{like: false, dislike: false, copied: true}`.  Only the in-range case is
modelled (out of range, the JavaScript assignment would sparsely extend
the array; no verified property exercises that path). -/
def handleCopyImmediate (idx : Nat) (arr : List Feedback) :
    Option (List Feedback) :=
  if idx < arr.length then some (arr.set idx ⟨false, false, true⟩)
  else none

/-- The deferred `setTimeout` callback of `handleCopy`:
`arr[idx] = { ...arr[idx], copied: false }` — `copied` is cleared and the
spread preserves `like` and `dislike` as they stand when the timer
fires. -/
def handleCopyReset (idx : Nat) (arr : List Feedback) :
    Option (List Feedback) :=
  if h : idx < arr.length then
    some (arr.set idx
      { arr.get ⟨idx, h⟩ with copied := false })
  else none

/-- A like or dislike click at a given index. -/
inductive FeedbackAction where
  | like (idx : Nat)
  | dislike (idx : Nat)

/-- Dispatch one feedback action. -/
def applyFeedbackAction (a : FeedbackAction) (arr : List Feedback) :
    Option (List Feedback) :=
  match a with
  | .like idx => handleLike idx arr
  | .dislike idx => handleDislike idx arr

/-- Run a finite sequence of like/dislike actions; `none` as soon as one
of them throws. -/
def runFeedbackActions (acts : List FeedbackAction) (arr : List Feedback) :
    Option (List Feedback) :=
  match acts with
  | [] => some arr
  | a :: rest =>
    match applyFeedbackAction a arr with
    | some arr1 => runFeedbackActions rest arr1
    | none => none

/-- Mutual exclusion of the like and dislike flags of one slot. -/
def exclusive (f : Feedback) : Bool :=
  !(f.like && f.dislike)

/-! ## Parallel-array sync effect

The `useEffect` keyed on `conversation.length` pads `feedbackArr` (with
all-false records) and `hoveredArr` (with `""`) up to the conversation
length with a `while`/`push` loop, then truncates with `slice(0, len)`. -/

/-- The `feedbackArr` branch of the sync effect for a conversation of
length `n`. -/
def syncFeedbackEffect (n : Nat) (arr : List Feedback) : List Feedback :=
  if arr.length ≠ n then
    (arr ++ List.replicate (n - arr.length) defaultFeedback).take n
  else arr

/-- The `hoveredArr` branch of the sync effect for a conversation of
length `n`. -/
def syncHoveredEffect (n : Nat) (arr : List String) : List String :=
  if arr.length ≠ n then
    (arr ++ List.replicate (n - arr.length) "").take n
  else arr

/-- The conversation together with its two parallel per-entry arrays. -/
structure AnnotatedConv where
  conversation : List MessageEntry
  feedbackArr : List Feedback
  hoveredArr : List String
deriving DecidableEq

/-- Append one entry to the conversation and run the sync effect, which
fires once the conversation length has changed. -/
def appendAndSync (st : AnnotatedConv) (e : MessageEntry) : AnnotatedConv :=
  let conv := st.conversation ++ [e]
  { conversation := conv
    feedbackArr := syncFeedbackEffect conv.length st.feedbackArr
    hoveredArr := syncHoveredEffect conv.length st.hoveredArr }

/-- Append a sequence of entries, syncing after each append. -/
def appendAll (st : AnnotatedConv) (es : List MessageEntry) : AnnotatedConv :=
  es.foldl appendAndSync st

/-! ## Helper lemmas -/

/-- `hexDigits w n` always produces exactly `w` characters. -/
theorem length_hexDigits (w : Nat) : ∀ n, (hexDigits w n).length = w := by
  induction w with
  | zero => intro n; rfl
  | succ w ih => intro n; simp [hexDigits, ih]

/-- A generated identifier never exceeds 32 characters. -/
theorem generateId_length (r : Nat) : (generateId r).length ≤ 32 := by
  simp [generateId, String.length]

/-- A string all of whose characters are JavaScript whitespace trims to the
empty string. -/
theorem jsTrim_eq_empty (s : String)
    (h : ∀ c ∈ s.data, isJsWhitespace c = true) : jsTrim s = "" := by
  have h1 : s.data.dropWhile isJsWhitespace = [] := by
    rw [List.dropWhile_eq_nil_iff]
    exact fun c hc => h c hc
  simp [jsTrim, h1]

/-- Full run of `submitMessage` on a non-blank input: the final state and
the issued request, for every fetch outcome. -/
theorem submit_run (st : ChatState) (s : String)
    (fetch : Except String HttpResponse) (h : jsTrim s ≠ "") :
    submitMessage st s fetch =
      ({ st with
          message := ""
          error := none
          conversation := st.conversation ++ [⟨"user", jsTrim s⟩, responseEntry fetch]
          showPills := false
          isLoading := false },
        some (submitEnvelope st s)) := by
  cases fetch with
  | error m =>
    simp [submitMessage, h, submitPre, applyFetchOutcome, responseEntry]
  | ok res =>
    by_cases hok : resOk res.status
    · cases hb : res.body with
      | error m =>
        simp [submitMessage, h, submitPre, applyFetchOutcome, responseEntry,
          hok, hb]
      | ok data =>
        simp [submitMessage, h, submitPre, applyFetchOutcome, responseEntry,
          hok, hb]
    · simp [submitMessage, h, submitPre, applyFetchOutcome, responseEntry, hok]

/-- The returned session id is at most 32 characters long. -/
theorem getSessionId_fst_length (isClient : Bool) (stored : Option String)
    (r : Nat) : (getSessionId isClient stored r).1.length ≤ 32 := by
  cases isClient with
  | false => simp [getSessionId]
  | true =>
    cases stored with
    | none => simpa [getSessionId] using generateId_length r
    | some s =>
      by_cases hv : s ≠ "" ∧ s.length ≤ 32
      · simp [getSessionId, hv]
      · simpa [getSessionId, hv] using generateId_length r

/-- A stored session id longer than 32 characters is replaced by a freshly
generated one, which is also written back. -/
theorem getSessionId_regenerates (s : String) (r : Nat) (h : 32 < s.length) :
    getSessionId true (some s) r = (generateId r, some (generateId r)) := by
  have hv : ¬(s ≠ "" ∧ s.length ≤ 32) := by
    rintro ⟨-, hle⟩; omega
  simp [getSessionId, hv]

/-- `getUserId` runs the same logic as `getSessionId` (against the other
storage scope). -/
theorem getUserId_eq_getSessionId : getUserId = getSessionId := rfl

/-- Each like/dislike action writes a slot whose two exclusive flags are
never both set, and leaves the other slots alone; so slot-wise mutual
exclusion is preserved. -/
theorem applyFeedbackAction_preserves_exclusive (a : FeedbackAction)
    (arr arr2 : List Feedback) (h : applyFeedbackAction a arr = some arr2)
    (hx : ∀ f ∈ arr, exclusive f = true) : ∀ f ∈ arr2, exclusive f = true := by
  cases a with
  | like idx =>
    simp only [applyFeedbackAction, handleLike] at h
    by_cases hlt : idx < arr.length
    · rw [dif_pos hlt] at h
      injection h with h
      subst h
      intro f hf
      rcases List.mem_or_eq_of_mem_set hf with hm | he
      · exact hx f hm
      · subst he; simp [exclusive]
    · rw [dif_neg hlt] at h
      exact absurd h (by simp)
  | dislike idx =>
    simp only [applyFeedbackAction, handleDislike] at h
    by_cases hlt : idx < arr.length
    · rw [dif_pos hlt] at h
      injection h with h
      subst h
      intro f hf
      rcases List.mem_or_eq_of_mem_set hf with hm | he
      · exact hx f hm
      · subst he; simp [exclusive]
    · rw [dif_neg hlt] at h
      exact absurd h (by simp)

/-- Mutual exclusion is preserved by any finite action sequence. -/
theorem runFeedbackActions_preserves_exclusive (acts : List FeedbackAction) :
    ∀ arr arr2, runFeedbackActions acts arr = some arr2 →
      (∀ f ∈ arr, exclusive f = true) → ∀ f ∈ arr2, exclusive f = true := by
  induction acts with
  | nil =>
    intro arr arr2 h hx
    simp only [runFeedbackActions] at h
    injection h with h
    subst h
    exact hx
  | cons a rest ih =>
    intro arr arr2 h hx
    simp only [runFeedbackActions] at h
    cases ha : applyFeedbackAction a arr with
    | none => rw [ha] at h; exact absurd h (by simp)
    | some arr1 =>
      rw [ha] at h
      exact ih arr1 arr2 h
        (applyFeedbackAction_preserves_exclusive a arr arr1 ha hx)

/-- On an aligned state, one append-and-sync step extends each of the
three containers by exactly one element, the fresh feedback slot being
the all-false default and the fresh hover slot the empty label. -/
theorem appendAndSync_aligned (st : AnnotatedConv) (e : MessageEntry)
    (h1 : st.feedbackArr.length = st.conversation.length)
    (h2 : st.hoveredArr.length = st.conversation.length) :
    appendAndSync st e =
      ⟨st.conversation ++ [e], st.feedbackArr ++ [defaultFeedback],
        st.hoveredArr ++ [""]⟩ := by
  unfold appendAndSync syncFeedbackEffect syncHoveredEffect
  dsimp only
  have hlen : (st.conversation ++ [e]).length = st.conversation.length + 1 := by
    simp
  rw [hlen]
  have hf : st.feedbackArr.length ≠ st.conversation.length + 1 := by omega
  have hh : st.hoveredArr.length ≠ st.conversation.length + 1 := by omega
  rw [if_pos hf, if_pos hh]
  have e1 : (st.feedbackArr ++
      List.replicate (st.conversation.length + 1 - st.feedbackArr.length)
        defaultFeedback).take (st.conversation.length + 1) =
      st.feedbackArr ++ [defaultFeedback] := by
    rw [show st.conversation.length + 1 - st.feedbackArr.length = 1 by omega]
    rw [List.replicate_one]
    apply List.take_of_length_le
    simp [h1]
  have e2 : (st.hoveredArr ++
      List.replicate (st.conversation.length + 1 - st.hoveredArr.length)
        "").take (st.conversation.length + 1) =
      st.hoveredArr ++ [""] := by
    rw [show st.conversation.length + 1 - st.hoveredArr.length = 1 by omega]
    rw [List.replicate_one]
    apply List.take_of_length_le
    simp [h2]
  rw [e1, e2]

/-- Characterization of `appendAll` from an aligned state: the
conversation grows by `es`, and the parallel arrays each grow by the
matching number of default slots. -/
theorem appendAll_aligned (es : List MessageEntry) :
    ∀ st : AnnotatedConv,
      st.feedbackArr.length = st.conversation.length →
      st.hoveredArr.length = st.conversation.length →
      appendAll st es =
        ⟨st.conversation ++ es,
          st.feedbackArr ++ List.replicate es.length defaultFeedback,
          st.hoveredArr ++ List.replicate es.length ""⟩ := by
  induction es with
  | nil => intro st h1 h2; simp [appendAll]
  | cons e rest ih =>
    intro st h1 h2
    have step := appendAndSync_aligned st e h1 h2
    have h1s : (appendAndSync st e).feedbackArr.length =
        (appendAndSync st e).conversation.length := by
      rw [step]; simp [h1]
    have h2s : (appendAndSync st e).hoveredArr.length =
        (appendAndSync st e).conversation.length := by
      rw [step]; simp [h2]
    have : appendAll st (e :: rest) = appendAll (appendAndSync st e) rest := by
      simp [appendAll]
    rw [this, ih (appendAndSync st e) h1s h2s, step]
    simp [List.replicate_succ]

/-- Clicking like then dislike on the same in-range slot leaves the slot
at `{like: false, dislike: true, copied: false}`. -/
theorem like_then_dislike (arr : List Feedback) (i : Nat) (h : i < arr.length) :
    (handleLike i arr).bind (handleDislike i) =
      some (arr.set i ⟨false, true, false⟩) := by
  have h2 : i < (arr.set i ⟨!(arr.get ⟨i, h⟩).like, false, false⟩).length := by
    simpa using h
  simp only [handleLike, dif_pos h, Option.some_bind, handleDislike, dif_pos h2]
  simp [List.get_eq_getElem, List.getElem_set_self, List.set_set]

/-- Clicking dislike then like on the same in-range slot leaves the slot
at `{like: true, dislike: false, copied: false}`. -/
theorem dislike_then_like (arr : List Feedback) (i : Nat) (h : i < arr.length) :
    (handleDislike i arr).bind (handleLike i) =
      some (arr.set i ⟨true, false, false⟩) := by
  have h2 : i < (arr.set i ⟨false, !(arr.get ⟨i, h⟩).dislike, false⟩).length := by
    simpa using h
  simp only [handleDislike, dif_pos h, Option.some_bind, handleLike, dif_pos h2]
  simp [List.get_eq_getElem, List.getElem_set_self, List.set_set]

/-- The component's initial state: empty input, empty conversation, no
error, not loading, pills shown, identifiers not yet initialized. -/
def initialState : ChatState := ⟨"", [], none, false, true, "", ""⟩

/-! ## Claim theorems -/

/-- Claim C1: for every input whose trimmed form is non-empty,
`submitMessage` appends exactly one `{role: "user", content: trim(s)}`
entry to the conversation before the network call is issued, and for
every fetch outcome — including failures — the final conversation still
contains that entry in place (no rollback). -/
theorem claim_submit_optimistic_user_append (st : ChatState) (s : String)
    (fetch : Except String HttpResponse) (h : jsTrim s ≠ "") :
    (submitPre st s).conversation = st.conversation ++ [⟨"user", jsTrim s⟩] ∧
    (submitMessage st s fetch).1.conversation =
      st.conversation ++ [⟨"user", jsTrim s⟩] ++ [responseEntry fetch] := by
  refine ⟨rfl, ?_⟩
  rw [submit_run st s fetch h]
  simp

theorem claim_submit_optimistic_user_append_witness :
    jsTrim " hi " ≠ "" ∧
    ((submitPre initialState " hi ").conversation =
        initialState.conversation ++ [⟨"user", jsTrim " hi "⟩] ∧
      (submitMessage initialState " hi " (.error "network down")).1.conversation =
        initialState.conversation ++ [⟨"user", jsTrim " hi "⟩] ++
          [responseEntry (.error "network down")]) :=
  ⟨by decide,
    claim_submit_optimistic_user_append initialState " hi "
      (.error "network down") (by decide)⟩

/-- Claim C2: every failing submission (non-2xx status, fetch exception
or JSON-parse exception) appends exactly one synthetic agent entry whose
content is `"Error: "` followed by the error message — for HTTP 500 that
is exactly `"Error: Server error: 500"` — and the loading flag is false
after `submitMessage` completes on every path. -/
theorem claim_submit_failure_error_entry_and_loading (st : ChatState)
    (s : String) (fetch : Except String HttpResponse) (status : Nat)
    (body : Except String ResponseBody) (m : String) (h : jsTrim s ≠ "") :
    (resOk status = false →
      (submitMessage st s (.ok ⟨status, body⟩)).1.conversation =
        st.conversation ++ [⟨"user", jsTrim s⟩,
          errorEntry ("Server error: " ++ toString status)]) ∧
    ((submitMessage st s (.error m)).1.conversation =
      st.conversation ++ [⟨"user", jsTrim s⟩, errorEntry m]) ∧
    (resOk status = true →
      (submitMessage st s (.ok ⟨status, .error m⟩)).1.conversation =
        st.conversation ++ [⟨"user", jsTrim s⟩, errorEntry m]) ∧
    errorEntry ("Server error: " ++ toString (500 : Nat)) =
      ⟨"agent", "Error: Server error: 500"⟩ ∧
    (submitMessage st s fetch).1.isLoading = false := by
  refine ⟨?_, ?_, ?_, by decide, ?_⟩
  · intro hok
    rw [submit_run st s _ h]
    simp [responseEntry, hok]
  · rw [submit_run st s _ h]
    simp [responseEntry]
  · intro hok
    rw [submit_run st s _ h]
    simp [responseEntry, hok]
  · rw [submit_run st s fetch h]

theorem claim_submit_failure_error_entry_and_loading_witness :
    resOk 500 = false ∧
    (submitMessage initialState "hi" (.ok ⟨500, .ok ⟨none⟩⟩)).1.conversation =
      initialState.conversation ++ [⟨"user", jsTrim "hi"⟩,
        errorEntry ("Server error: " ++ toString (500 : Nat))] ∧
    (submitMessage initialState "hi" (.error "fetch failed")).1.isLoading = false :=
  ⟨by decide,
    (claim_submit_failure_error_entry_and_loading initialState "hi"
      (.error "fetch failed") 500 (.ok ⟨none⟩) "fetch failed" (by decide)).1
      (by decide),
    (claim_submit_failure_error_entry_and_loading initialState "hi"
      (.error "fetch failed") 500 (.ok ⟨none⟩) "fetch failed"
      (by decide)).2.2.2.2⟩

/-- Claim C3 (counterexample): with a 2xx response whose
`output_data.content` is present but the empty string, the appended agent
entry carries the fixed fallback text, not the (empty) content — so
"content present implies the content is appended" fails at this input. -/
theorem claim_empty_content_fallback_counterexample :
    (submitMessage initialState "hi"
        (.ok ⟨200, .ok ⟨some (some "")⟩⟩)).1.conversation =
      [⟨"user", "hi"⟩, ⟨"agent", noValidResponse⟩] ∧
    noValidResponse ≠ "" := by decide

/-- Claim C3 (amended): on a 2xx response the appended agent entry is
`{role: "agent", content: agentReply body}`, where a present and
non-empty (truthy) `output_data.content` is passed through verbatim and
every other shape — absent `output_data`, absent `content`, or a present
but empty `content` — yields exactly the fixed fallback string. -/
theorem claim_success_reply_truthy_content (st : ChatState) (s : String)
    (status : Nat) (od : Option (Option String)) (h : jsTrim s ≠ "")
    (hok : resOk status = true) :
    (submitMessage st s (.ok ⟨status, .ok ⟨od⟩⟩)).1.conversation =
      st.conversation ++ [⟨"user", jsTrim s⟩, ⟨"agent", agentReply ⟨od⟩⟩] ∧
    (∀ c : String, c ≠ "" → agentReply ⟨some (some c)⟩ = c) ∧
    agentReply ⟨some (some "")⟩ = noValidResponse ∧
    agentReply ⟨some none⟩ = noValidResponse ∧
    agentReply ⟨none⟩ = noValidResponse := by
  refine ⟨?_, ?_, by decide, rfl, rfl⟩
  · rw [submit_run st s _ h]
    simp [responseEntry, hok]
  · intro c hc
    simp [agentReply, hc]

theorem claim_success_reply_truthy_content_witness :
    jsTrim "hi" ≠ "" ∧ resOk 200 = true ∧
    (submitMessage initialState "hi"
        (.ok ⟨200, .ok ⟨some (some "hello")⟩⟩)).1.conversation =
      initialState.conversation ++
        [⟨"user", jsTrim "hi"⟩, ⟨"agent", agentReply ⟨some (some "hello")⟩⟩] :=
  ⟨by decide, by decide,
    (claim_success_reply_truthy_content initialState "hi" 200
      (some (some "hello")) (by decide) (by decide)).1⟩

/-- Claim C4: an input that is empty or consists only of whitespace makes
`submitMessage` a complete no-op — the state is returned unchanged and no
request envelope is issued. -/
theorem claim_whitespace_submit_noop (st : ChatState) (s : String)
    (fetch : Except String HttpResponse)
    (h : ∀ c ∈ s.data, isJsWhitespace c = true) :
    submitMessage st s fetch = (st, none) := by
  have ht := jsTrim_eq_empty s h
  simp [submitMessage, ht]

theorem claim_whitespace_submit_noop_witness :
    (∀ c ∈ (" \t" : String).data, isJsWhitespace c = true) ∧
    submitMessage initialState " \t" (.error "unused") = (initialState, none) :=
  ⟨by decide,
    claim_whitespace_submit_noop initialState " \t" (.error "unused")
      (by decide)⟩

/-- Claim C5: `getSessionId` and `getUserId` always return a string of at
most 32 characters (for any stored value, client flag and random seed),
and a stored identifier longer than 32 characters is discarded: both
getters then return a freshly generated identifier and write it back. -/
theorem claim_identifier_length_bound (isClient : Bool)
    (stored : Option String) (r : Nat) :
    (getSessionId isClient stored r).1.length ≤ 32 ∧
    (getUserId isClient stored r).1.length ≤ 32 ∧
    (∀ s : String, stored = some s → 32 < s.length →
      getSessionId true stored r = (generateId r, some (generateId r)) ∧
      getUserId true stored r = (generateId r, some (generateId r))) := by
  refine ⟨getSessionId_fst_length isClient stored r, ?_, ?_⟩
  · rw [getUserId_eq_getSessionId]
    exact getSessionId_fst_length isClient stored r
  · intro s hs hl
    subst hs
    refine ⟨getSessionId_regenerates s r hl, ?_⟩
    rw [getUserId_eq_getSessionId]
    exact getSessionId_regenerates s r hl

theorem claim_identifier_length_bound_witness :
    (getSessionId true (some "000000000000000000000000000000000") 0).1.length ≤ 32 ∧
    getSessionId true (some "000000000000000000000000000000000") 0 =
      (generateId 0, some (generateId 0)) :=
  ⟨(claim_identifier_length_bound true
      (some "000000000000000000000000000000000") 0).1,
    ((claim_identifier_length_bound true
      (some "000000000000000000000000000000000") 0).2.2
      "000000000000000000000000000000000" rfl (by decide)).1⟩

/-- Claim C6: for every in-range index and starting feedback state,
like-then-dislike yields `{like: false, dislike: true}` and
dislike-then-like yields `{like: true, dislike: false}`, and the mutual
exclusion of the two flags is maintained across any finite sequence of
like/dislike actions. -/
theorem claim_feedback_mutual_exclusion (arr : List Feedback) (i : Nat)
    (acts : List FeedbackAction) (h : i < arr.length) :
    (handleLike i arr).bind (handleDislike i) =
      some (arr.set i ⟨false, true, false⟩) ∧
    (handleDislike i arr).bind (handleLike i) =
      some (arr.set i ⟨true, false, false⟩) ∧
    (∀ arr2, runFeedbackActions acts arr = some arr2 →
      (∀ f ∈ arr, exclusive f = true) → ∀ f ∈ arr2, exclusive f = true) :=
  ⟨like_then_dislike arr i h, dislike_then_like arr i h,
    fun arr2 hrun hx =>
      runFeedbackActions_preserves_exclusive acts arr arr2 hrun hx⟩

theorem claim_feedback_mutual_exclusion_witness :
    (handleLike 0 [defaultFeedback]).bind (handleDislike 0) =
      some ([defaultFeedback].set 0 ⟨false, true, false⟩) ∧
    exclusive ⟨false, true, false⟩ = true :=
  ⟨(claim_feedback_mutual_exclusion [defaultFeedback] 0
      [.like 0, .dislike 0] (by decide)).1,
    (claim_feedback_mutual_exclusion [defaultFeedback] 0
      [.like 0, .dislike 0] (by decide)).2.2 [⟨false, true, false⟩]
      (by decide) (by decide) ⟨false, true, false⟩ (by decide)⟩

/-- Claim C7: starting from aligned parallel containers, after any
sequence of appends the feedback and hover arrays again have exactly the
conversation's length, and every newly covered position holds the
all-false feedback default (and the empty hover label). -/
theorem claim_parallel_array_alignment (st : AnnotatedConv)
    (es : List MessageEntry)
    (h1 : st.feedbackArr.length = st.conversation.length)
    (h2 : st.hoveredArr.length = st.conversation.length) :
    (appendAll st es).feedbackArr.length =
      (appendAll st es).conversation.length ∧
    (appendAll st es).hoveredArr.length =
      (appendAll st es).conversation.length ∧
    ∀ j, st.conversation.length ≤ j →
      j < (appendAll st es).conversation.length →
      (appendAll st es).feedbackArr.get? j = some defaultFeedback ∧
      (appendAll st es).hoveredArr.get? j = some "" := by
  have hc := appendAll_aligned es st h1 h2
  rw [hc]
  refine ⟨by simp [h1], by simp [h2], ?_⟩
  intro j hj1 hj2
  simp only [List.length_append] at hj2
  have hjf : st.feedbackArr.length ≤ j := by omega
  have hjh : st.hoveredArr.length ≤ j := by omega
  constructor
  · rw [List.get?_eq_getElem?, List.getElem?_append_right hjf]
    have : j - st.feedbackArr.length < es.length := by omega
    simp [this]
  · rw [List.get?_eq_getElem?, List.getElem?_append_right hjh]
    have : j - st.hoveredArr.length < es.length := by omega
    simp [this]

theorem claim_parallel_array_alignment_witness :
    (appendAll ⟨[], [], []⟩ [⟨"user", "hi"⟩]).feedbackArr.length =
      (appendAll ⟨[], [], []⟩ [⟨"user", "hi"⟩]).conversation.length ∧
    (appendAll ⟨[], [], []⟩ [⟨"user", "hi"⟩]).feedbackArr.get? 0 =
      some defaultFeedback :=
  ⟨(claim_parallel_array_alignment ⟨[], [], []⟩ [⟨"user", "hi"⟩] rfl rfl).1,
    ((claim_parallel_array_alignment ⟨[], [], []⟩ [⟨"user", "hi"⟩] rfl rfl).2.2
      0 (by decide) (by decide)).1⟩

/-- Claim C8 (counterexample): `handleCopy` does not leave the like flag
unchanged — on a slot with `like = true` the immediate copy update resets
`like` to false, so `copied` is not independent of the other two flags. -/
theorem claim_copy_independent_counterexample :
    handleCopyImmediate 0 [⟨true, false, false⟩] =
      some [⟨false, false, true⟩] ∧
    Feedback.like ⟨false, false, true⟩ ≠ Feedback.like ⟨true, false, false⟩ := by
  decide

/-- Claim C8 (amended): for an in-range index, the immediate update of
`handleCopy` sets the slot to `{like: false, dislike: false, copied:
true}` — raising `copied` and clearing both other flags — and the
deferred reset, scheduled after the fixed 1200 ms delay, clears only
`copied`, preserving the like and dislike flags as they stand. -/
theorem claim_copy_sets_and_resets (arr : List Feedback) (i : Nat)
    (h : i < arr.length) :
    handleCopyImmediate i arr = some (arr.set i ⟨false, false, true⟩) ∧
    handleCopyReset i arr =
      some (arr.set i
        ⟨(arr.get ⟨i, h⟩).like, (arr.get ⟨i, h⟩).dislike, false⟩) ∧
    copyResetDelayMs = 1200 := by
  refine ⟨by simp [handleCopyImmediate, h], ?_, rfl⟩
  simp only [handleCopyReset, dif_pos h]

theorem claim_copy_sets_and_resets_witness :
    handleCopyImmediate 0 [⟨true, false, false⟩] =
      some ([⟨true, false, false⟩].set 0 ⟨false, false, true⟩) ∧
    handleCopyReset 0 [⟨true, false, false⟩] =
      some ([⟨true, false, false⟩].set 0 ⟨true, false, false⟩) :=
  ⟨(claim_copy_sets_and_resets [⟨true, false, false⟩] 0 (by decide)).1,
    (claim_copy_sets_and_resets [⟨true, false, false⟩] 0 (by decide)).2.1⟩

/-- Claim C9 (counterexample): on the empty feedback array, index 0 is
out of range and `handleLike`/`handleDislike` throw (the updater reads a
property of `undefined`), modelled as `none` — they do not return the
unchanged array as a successful no-op. -/
theorem claim_out_of_range_noop_counterexample :
    handleLike 0 ([] : List Feedback) = none ∧
    handleDislike 0 ([] : List Feedback) = none ∧
    handleLike 0 ([] : List Feedback) ≠ some ([] : List Feedback) := by
  decide

/-- Claim C9 (amended): for every index at or beyond the feedback array's
length, `handleLike` and `handleDislike` fail with a `TypeError`
(modelled as `none`) instead of acting as safe no-ops. -/
theorem claim_out_of_range_feedback_throws (idx : Nat)
    (arr : List Feedback) (h : arr.length ≤ idx) :
    handleLike idx arr = none ∧ handleDislike idx arr = none := by
  have hn : ¬idx < arr.length := by omega
  exact ⟨by simp [handleLike, hn], by simp [handleDislike, hn]⟩

theorem claim_out_of_range_feedback_throws_witness :
    handleLike 3 [defaultFeedback] = none ∧
    handleDislike 3 [defaultFeedback] = none :=
  claim_out_of_range_feedback_throws 3 [defaultFeedback] (by decide)

/-- Claim C10: after `handleLike` or `handleDislike` on an in-range slot,
that slot's `copied` flag is false whatever it was before — both handlers
unconditionally clear a pending copied indicator. -/
theorem claim_like_dislike_clear_copied (arr : List Feedback) (i : Nat)
    (h : i < arr.length) :
    (handleLike i arr).bind (fun a => a.get? i) =
      some ⟨!(arr.get ⟨i, h⟩).like, false, false⟩ ∧
    (handleDislike i arr).bind (fun a => a.get? i) =
      some ⟨false, !(arr.get ⟨i, h⟩).dislike, false⟩ := by
  constructor
  · simp only [handleLike, dif_pos h, Option.some_bind]
    simp [List.get?_eq_getElem?, h, List.getElem_set_self]
  · simp only [handleDislike, dif_pos h, Option.some_bind]
    simp [List.get?_eq_getElem?, h, List.getElem_set_self]

theorem claim_like_dislike_clear_copied_witness :
    (handleLike 0 [⟨false, false, true⟩]).bind (fun a => a.get? 0) =
      some ⟨true, false, false⟩ ∧
    (handleDislike 0 [⟨false, false, true⟩]).bind (fun a => a.get? 0) =
      some ⟨false, true, false⟩ :=
  claim_like_dislike_clear_copied [⟨false, false, true⟩] 0 (by decide)

end ChaiChat
